import Mathlib

/-!
# Verification of the fluent-logger forwarding core

A shallow embedding of the framing/buffering/retry pipeline of the
fluent logger (src/sender.rs, src/logger.rs), together with theorems
settling the specification claims.

Modelling conventions:
* `Instant` (Rust's monotonic clock value) is a `Nat`, interpreted as
  milliseconds on a monotonic axis; `Duration` subtraction `now - last`
  is truncated `Nat` subtraction.
* Bytes are `Nat`s (every operation produces values `< 256`).
* The nondeterministic environment (successive `Instant::now()` readings
  and the outcomes of the network write/connect calls) is an explicit
  oracle `Env`; the sender state carries counters of how many clock
  readings and network operations have been consumed, plus event logs of
  the successful stream writes and of the `handle_error` invocations, so
  that claims about "the clock is read once" or "the handler fired
  exactly once" are statable.
* `IOError` payloads are opaque and carry no information the claims
  depend on, so `SenderError::IO(_)` is modelled as a payload-free
  constructor.
-/

/-- The errors `emit` can surface (`enum SenderError` in src/sender.rs):
`IO(IOError)` and `TooLargeData`.  There is no other variant. -/
inductive SenderError where
  | io : SenderError
  | tooLargeData : SenderError
deriving DecidableEq, Repr

/-- `struct ConstantDelay` from src/sender.rs: a deque of error
timestamps (front = newest = list head, back = oldest = list last),
a bound `max_errors` and a delay `wait`. -/
structure ConstantDelay where
  error_records : List Nat
  max_errors : Nat
  wait : Nat
deriving DecidableEq, Repr

/-- `ConstantDelay::new`: empty history, `max_errors = 100`,
`wait = 50 ms`. -/
def ConstantDelay.new : ConstantDelay :=
  { error_records := [], max_errors := 100, wait := 50 }

/-- `ConstantDelay::clear_errors`: clear the deque. -/
def ConstantDelay.clear_errors (d : ConstantDelay) : ConstantDelay :=
  { d with error_records := [] }

/-- `ConstantDelay::record_error`: `push_front(now)`, then if the length
exceeds `max_errors`, `pop_back()`. -/
def ConstantDelay.record_error (d : ConstantDelay) (now : Nat) : ConstantDelay :=
  if (now :: d.error_records).length > d.max_errors then
    { d with error_records := (now :: d.error_records).dropLast }
  else
    { d with error_records := now :: d.error_records }

/-- `ConstantDelay::should_retry`: look at the back (oldest) record; if
present, retry iff `now - last ≥ wait`; with no records, retry. -/
def ConstantDelay.should_retry (d : ConstantDelay) (now : Nat) : Bool :=
  match d.error_records.getLast? with
  | some last => decide (d.wait ≤ now - last)
  | none => true

/-- One recorded `handle_error(timestamp, &error, unsent_data)` call. -/
structure HandlerCall where
  timestamp : Nat
  error : SenderError
  unsent : List Nat
deriving DecidableEq, Repr

/-- The oracle for the sender's interactions with the outside world:
`clock i` is the value of the `i`-th `Instant::now()` call, and `net i`
tells whether the `i`-th network operation (a `stream.write` or a
`TcpStream::connect`) succeeds. -/
structure Env where
  clock : Nat → Nat
  net : Nat → Bool

/-- `struct TcpSender` from src/sender.rs, with the stream abstracted
into the oracle counters and event logs.  `buffer` is the byte vector,
`capacity` its fixed capacity, `retry` the retry manager,
`clockReads`/`netOps` count consumed oracle entries, `writes` logs each
successfully written byte sequence, `handlerCalls` logs each
`handle_error` invocation in order. -/
structure TcpSender where
  buffer : List Nat
  capacity : Nat
  retry : ConstantDelay
  clockReads : Nat
  netOps : Nat
  writes : List (List Nat)
  handlerCalls : List HandlerCall
deriving DecidableEq, Repr

/-- `TcpSender::new`: connected sender with an empty buffer of capacity
8 MiB (`Vec::with_capacity(8 * 1024 * 1024)`) and the given (default)
retry manager; no oracle entry consumed yet, no events logged. -/
def TcpSender.new : TcpSender :=
  { buffer := []
    capacity := 8 * 1024 * 1024
    retry := ConstantDelay.new
    clockReads := 0
    netOps := 0
    writes := []
    handlerCalls := [] }

/-- One `Instant::now()` call: yields the next clock oracle entry. -/
def readClock (env : Env) (s : TcpSender) : Nat × TcpSender :=
  (env.clock s.clockReads, { s with clockReads := s.clockReads + 1 })

/-- One network operation (`stream.write` or `TcpStream::connect`):
yields the next network oracle outcome. -/
def netOp (env : Env) (s : TcpSender) : Bool × TcpSender :=
  (env.net s.netOps, { s with netOps := s.netOps + 1 })

/-- `TcpSender::send_buffer_with_reconnect_once`: write the buffer to
the stream; on write error, connect once to `addr` and, if the dial
succeeds, retry the single write on the new stream.  A successful write
is logged in `writes`. -/
def send_buffer_with_reconnect_once (env : Env) (s : TcpSender) :
    Bool × TcpSender :=
  let (ok₁, s₁) := netOp env s
  if ok₁ then
    (true, { s₁ with writes := s₁.writes ++ [s₁.buffer] })
  else
    let (conn, s₂) := netOp env s₁
    if conn then
      let (ok₂, s₃) := netOp env s₂
      if ok₂ then
        (true, { s₃ with writes := s₃.writes ++ [s₃.buffer] })
      else (false, s₃)
    else (false, s₂)

/-- `TcpSender::flush_buffer`: with an empty buffer, clear the error
history and return `Ok`; otherwise attempt the write-with-reconnect.  On
success clear the buffer and the history; on failure read the clock
(`let now = Instant::now()` inside the `Err` arm), record the error,
invoke the error handler with the unsent buffer, and return the error. -/
def flush_buffer (env : Env) (s : TcpSender) :
    Option SenderError × TcpSender :=
  if s.buffer.isEmpty then
    (none, { s with retry := s.retry.clear_errors })
  else
    let r := send_buffer_with_reconnect_once env s
    if r.1 then
      (none, { r.2 with buffer := [], retry := r.2.retry.clear_errors })
    else
      let c := readClock env r.2
      (some SenderError.io,
        { c.2 with
            retry := c.2.retry.record_error c.1
            handlerCalls :=
              c.2.handlerCalls ++
                [{ timestamp := c.1, error := SenderError.io,
                   unsent := c.2.buffer }] })

/-- The first conditional of `emit` ("if buffer space is insufficient,
flush first"): when `buffer.len() + data.len() > capacity` and the retry
manager allows it, run `flush_buffer`; otherwise do nothing. -/
def emit_preflush (env : Env) (s : TcpSender) (data : List Nat)
    (now : Nat) : Option SenderError × TcpSender :=
  if s.buffer.length + data.length > s.capacity ∧
      s.retry.should_retry now = true then
    flush_buffer env s
  else
    (none, s)

/-- `TcpSender::emit` (src/sender.rs lines 169-189): read the clock
once into `now`; pre-flush when space is insufficient and retry is
allowed, propagating any error (`?`); return `TooLargeData` when the
data exceeds the remaining capacity; otherwise append the data to the
buffer and, when the retry manager allows it, flush. -/
def emit (env : Env) (s : TcpSender) (data : List Nat) :
    Option SenderError × TcpSender :=
  let c := readClock env s
  let p := emit_preflush env c.2 data c.1
  match p.1 with
  | some e => (some e, p.2)
  | none =>
    if data.length > p.2.capacity - p.2.buffer.length then
      (some SenderError.tooLargeData, p.2)
    else
      let s₂ := { p.2 with buffer := p.2.buffer ++ data }
      if s₂.retry.should_retry c.1 = true then
        flush_buffer env s₂
      else
        (none, s₂)

/-- Fold `emit` over a list of frames, continuing through errors (the
caller may keep calling after a failure). -/
def runEmits (env : Env) (s : TcpSender) : List (List Nat) → TcpSender
  | [] => s
  | d :: ds => runEmits env (emit env s d).2 ds

/-! ## MessagePack framing (src/logger.rs, mod msgpack_util) -/

/-- The Rust `as u8` cast on an `i64` value: the low 8 bits, i.e. the
nonnegative representative modulo 256 (`%` on `Int` is Euclidean). -/
def asU8 (i : Int) : Nat := (i % 256).toNat

/-- The Rust arithmetic right shift `i >> k` on `i64`: floor division
by `2 ^ k`. -/
def sar (i : Int) (k : Nat) : Int := Int.fdiv i (2 ^ k)

/-- `msgpack_util::write_i64`: push `0xd3`, then the bytes
`(i >> 56) as u8` down to `i as u8`. -/
def write_i64 (i : Int) (out : List Nat) : List Nat :=
  out ++ [0xd3, asU8 (sar i 56), asU8 (sar i 48), asU8 (sar i 40),
    asU8 (sar i 32), asU8 (sar i 24), asU8 (sar i 16), asU8 (sar i 8),
    asU8 i]

/-- `msgpack_util::write_string`, with the string given by its UTF-8
bytes: push the MessagePack string header chosen by the byte length
(`len < 32`: `0xa0 | len`; `len < 256`: `0xd9` + length byte;
`len < 65536`: `0xda` + 2 bytes; else `0xdb` + 4 bytes), then the raw
bytes. -/
def write_string (s : List Nat) (out : List Nat) : List Nat :=
  let len := s.length
  let header : List Nat :=
    if len < 32 then [0xa0 ||| len]
    else if len < 256 then [0xd9, len % 256]
    else if len < 65536 then [0xda, len / 2 ^ 8 % 256, len % 256]
    else [0xdb, len / 2 ^ 24 % 256, len / 2 ^ 16 % 256,
      len / 2 ^ 8 % 256, len % 256]
  out ++ header ++ s

/-- `FluentLogger::log_msgpack_with_timestamp`, framing part: the bytes
handed to `sender.emit` are `0x93`, the tag string, the `0xd3` int64
timestamp, then the record-encoder's bytes appended verbatim.  The tag
is given by its UTF-8 bytes and the record by the bytes the successful
record-encoder (`rmp_serde::to_vec`) returned. -/
def log_msgpack_with_timestamp (tag : List Nat) (time : Int)
    (record : List Nat) : List Nat :=
  let buf : List Nat := [0x93]
  let buf := write_string tag buf
  let buf := write_i64 time buf
  buf ++ record

/-- The claim's description of the MessagePack string header for a tag
of byte length `L`: the size-class table of spec §4.3, written as the
spec words it. -/
def specStrHeader (L : Nat) : List Nat :=
  if L < 32 then [0xa0 + L]
  else if L < 256 then [0xd9, L]
  else if L < 65536 then [0xda, L / 256, L % 256]
  else [0xdb, L / 2 ^ 24 % 256, L / 2 ^ 16 % 256, L / 2 ^ 8 % 256,
    L % 256]

/-- The claim's description of the timestamp bytes: the 8 big-endian
bytes of the 64-bit two's-complement representation of `time` (the
residue of `time` modulo `2 ^ 64`, split into bytes from most to least
significant). -/
def specI64be (time : Int) : List Nat :=
  [(time % 2 ^ 64).toNat / 2 ^ 56 % 256,
    (time % 2 ^ 64).toNat / 2 ^ 48 % 256,
    (time % 2 ^ 64).toNat / 2 ^ 40 % 256,
    (time % 2 ^ 64).toNat / 2 ^ 32 % 256,
    (time % 2 ^ 64).toNat / 2 ^ 24 % 256,
    (time % 2 ^ 64).toNat / 2 ^ 16 % 256,
    (time % 2 ^ 64).toNat / 2 ^ 8 % 256,
    (time % 2 ^ 64).toNat % 256]

/-! ## Retry-manager call sequences -/

/-- A call in a sequence of retry-manager operations. -/
inductive RetryOp where
  | record (t : Nat) : RetryOp
  | clear : RetryOp
deriving DecidableEq, Repr

/-- Apply a sequence of `record_error` / `clear_errors` calls. -/
def applyRetryOps : List RetryOp → ConstantDelay → ConstantDelay
  | [], d => d
  | RetryOp.record t :: ops, d => applyRetryOps ops (d.record_error t)
  | RetryOp.clear :: ops, d => applyRetryOps ops d.clear_errors

/-! ## Frame lemmas for the retry manager -/

lemma record_error_wait (d : ConstantDelay) (t : Nat) :
    (d.record_error t).wait = d.wait := by
  unfold ConstantDelay.record_error
  split <;> rfl

lemma record_error_max (d : ConstantDelay) (t : Nat) :
    (d.record_error t).max_errors = d.max_errors := by
  unfold ConstantDelay.record_error
  split <;> rfl

lemma clear_errors_wait (d : ConstantDelay) :
    d.clear_errors.wait = d.wait := rfl

lemma clear_errors_max (d : ConstantDelay) :
    d.clear_errors.max_errors = d.max_errors := rfl

lemma applyRetryOps_wait (ops : List RetryOp) (d : ConstantDelay) :
    (applyRetryOps ops d).wait = d.wait := by
  induction ops generalizing d with
  | nil => rfl
  | cons op ops ih =>
    cases op <;>
      simp [applyRetryOps, ih, record_error_wait, clear_errors_wait]

lemma applyRetryOps_max (ops : List RetryOp) (d : ConstantDelay) :
    (applyRetryOps ops d).max_errors = d.max_errors := by
  induction ops generalizing d with
  | nil => rfl
  | cons op ops ih =>
    cases op <;>
      simp [applyRetryOps, ih, record_error_max, clear_errors_max]

/-! ## Frame lemmas for the sender -/

lemma send_frame (env : Env) (s : TcpSender) :
    ((send_buffer_with_reconnect_once env s).2.buffer = s.buffer ∧
      (send_buffer_with_reconnect_once env s).2.capacity = s.capacity ∧
      (send_buffer_with_reconnect_once env s).2.retry = s.retry ∧
      (send_buffer_with_reconnect_once env s).2.handlerCalls =
        s.handlerCalls ∧
      (send_buffer_with_reconnect_once env s).2.clockReads =
        s.clockReads) ∧
    ((send_buffer_with_reconnect_once env s).1 = true →
      (send_buffer_with_reconnect_once env s).2.writes =
        s.writes ++ [s.buffer]) ∧
    ((send_buffer_with_reconnect_once env s).1 = false →
      (send_buffer_with_reconnect_once env s).2.writes = s.writes) := by
  unfold send_buffer_with_reconnect_once netOp
  cases h1 : env.net s.netOps <;> simp [h1]
  cases h2 : env.net (s.netOps + 1) <;> simp [h2]
  cases h3 : env.net (s.netOps + 1 + 1) <;> simp [h3]

lemma flush_empty (env : Env) (s : TcpSender) (h : s.buffer = []) :
    flush_buffer env s = (none, { s with retry := s.retry.clear_errors }) := by
  simp [flush_buffer, h]

lemma flush_fail_spec (env : Env) (s : TcpSender)
    (h : (flush_buffer env s).1 ≠ none) :
    (flush_buffer env s).1 = some SenderError.io ∧
    (flush_buffer env s).2.buffer = s.buffer ∧
    (flush_buffer env s).2.capacity = s.capacity ∧
    (flush_buffer env s).2.writes = s.writes ∧
    (flush_buffer env s).2.clockReads = s.clockReads + 1 ∧
    (flush_buffer env s).2.retry =
      s.retry.record_error (env.clock s.clockReads) ∧
    (flush_buffer env s).2.handlerCalls =
      s.handlerCalls ++
        [{ timestamp := env.clock s.clockReads, error := SenderError.io,
           unsent := s.buffer }] := by
  have hf := send_frame env s
  obtain ⟨⟨hb, hc, hr, hh, hk⟩, _, hw⟩ := hf
  unfold flush_buffer at h ⊢
  by_cases he : s.buffer.isEmpty
  · simp [he] at h
  · simp only [he, if_false, Bool.false_eq_true] at h ⊢
    cases hs : (send_buffer_with_reconnect_once env s).1
    · simp only [hs, if_false, Bool.false_eq_true, readClock] at h ⊢
      simp [hb, hc, hr, hh, hk, hw hs]
    · simp [hs] at h

lemma flush_ok_spec (env : Env) (s : TcpSender)
    (h : (flush_buffer env s).1 = none) :
    (flush_buffer env s).2.buffer = [] ∧
    (flush_buffer env s).2.retry.error_records = [] ∧
    (flush_buffer env s).2.retry.wait = s.retry.wait ∧
    (flush_buffer env s).2.retry.max_errors = s.retry.max_errors ∧
    (flush_buffer env s).2.capacity = s.capacity ∧
    (flush_buffer env s).2.clockReads = s.clockReads ∧
    (flush_buffer env s).2.handlerCalls = s.handlerCalls ∧
    ((flush_buffer env s).2.writes = s.writes ∨
      (flush_buffer env s).2.writes = s.writes ++ [s.buffer]) := by
  have hf := send_frame env s
  obtain ⟨⟨hb, hc, hr, hh, hk⟩, hw, _⟩ := hf
  unfold flush_buffer at h ⊢
  by_cases he : s.buffer.isEmpty
  · simp only [he, if_true]
    simp [List.isEmpty_iff.mp he, ConstantDelay.clear_errors]
  · simp only [he, if_false, Bool.false_eq_true] at h ⊢
    cases hs : (send_buffer_with_reconnect_once env s).1
    · simp [hs] at h
    · simp only [hs, if_true]
      simp [hb, hc, hr, hh, hk, hw hs, ConstantDelay.clear_errors]

lemma preflush_some_spec (env : Env) (s : TcpSender) (data : List Nat)
    (now : Nat) (e : SenderError)
    (h : (emit_preflush env s data now).1 = some e) :
    emit_preflush env s data now = flush_buffer env s ∧
    s.capacity < s.buffer.length + data.length ∧
    s.retry.should_retry now = true := by
  unfold emit_preflush at h ⊢
  split at h
  · rename_i hc
    rw [if_pos hc]
    exact ⟨rfl, hc.1, hc.2⟩
  · simp at h

lemma preflush_none_spec (env : Env) (s : TcpSender) (data : List Nat)
    (now : Nat)
    (h : (emit_preflush env s data now).1 = none) :
    (emit_preflush env s data now).2.clockReads = s.clockReads ∧
    (emit_preflush env s data now).2.handlerCalls = s.handlerCalls ∧
    (emit_preflush env s data now).2.capacity = s.capacity ∧
    (emit_preflush env s data now).2.retry.wait = s.retry.wait ∧
    ((emit_preflush env s data now).2 = s ∨
      ((emit_preflush env s data now).2.buffer = [] ∧
        (emit_preflush env s data now).2.retry.error_records = [] ∧
        ((emit_preflush env s data now).2.writes = s.writes ∨
          (emit_preflush env s data now).2.writes =
            s.writes ++ [s.buffer]) ∧
        s.capacity < s.buffer.length + data.length ∧
        s.retry.should_retry now = true)) := by
  unfold emit_preflush at h ⊢
  split at h
  · rename_i hc
    rw [if_pos hc]
    have hf := flush_ok_spec env s h
    exact ⟨hf.2.2.2.2.2.1, hf.2.2.2.2.2.2.1, hf.2.2.2.2.1, hf.2.2.1,
      Or.inr ⟨hf.1, hf.2.1, hf.2.2.2.2.2.2.2, hc.1, hc.2⟩⟩
  · rename_i hc
    rw [if_neg hc]
    exact ⟨rfl, rfl, rfl, rfl, Or.inl rfl⟩

/-- The pre-flush result reached inside `emit` after the single clock
read at entry: the state against which the `TooLargeData` test is run. -/
def emitMid (env : Env) (s : TcpSender) (data : List Nat) :
    Option SenderError × TcpSender :=
  emit_preflush env { s with clockReads := s.clockReads + 1 } data
    (env.clock s.clockReads)

lemma emit_unfold (env : Env) (s : TcpSender) (data : List Nat) :
    emit env s data =
      match (emitMid env s data).1 with
      | some e => (some e, (emitMid env s data).2)
      | none =>
        if data.length > (emitMid env s data).2.capacity -
            (emitMid env s data).2.buffer.length then
          (some SenderError.tooLargeData, (emitMid env s data).2)
        else if ({ (emitMid env s data).2 with
            buffer := (emitMid env s data).2.buffer ++ data } :
              TcpSender).retry.should_retry (env.clock s.clockReads) =
            true then
          flush_buffer env { (emitMid env s data).2 with
            buffer := (emitMid env s data).2.buffer ++ data }
        else
          (none, { (emitMid env s data).2 with
            buffer := (emitMid env s data).2.buffer ++ data }) := rfl

lemma emit_unfold_none (env : Env) (s : TcpSender) (data : List Nat)
    (X : TcpSender) (h : emitMid env s data = (none, X)) :
    emit env s data =
      if data.length > X.capacity - X.buffer.length then
        (some SenderError.tooLargeData, X)
      else if ({ X with buffer := X.buffer ++ data } :
          TcpSender).retry.should_retry (env.clock s.clockReads) =
          true then
        flush_buffer env { X with buffer := X.buffer ++ data }
      else
        (none, { X with buffer := X.buffer ++ data }) := by
  rw [emit_unfold, h]

lemma emitMid_some_io (env : Env) (s : TcpSender) (data : List Nat)
    (e : SenderError) (hp : (emitMid env s data).1 = some e) :
    e = SenderError.io ∧
    emitMid env s data =
      flush_buffer env { s with clockReads := s.clockReads + 1 } := by
  obtain ⟨hpe, -, -⟩ := preflush_some_spec env
    { s with clockReads := s.clockReads + 1 } data
    (env.clock s.clockReads) e hp
  have hp' : (flush_buffer env
      { s with clockReads := s.clockReads + 1 }).1 = some e := by
    rw [← hpe]; exact hp
  have hne : (flush_buffer env
      { s with clockReads := s.clockReads + 1 }).1 ≠ none := by
    rw [hp']; simp
  obtain ⟨hio, -⟩ := flush_fail_spec env _ hne
  rw [hp'] at hio
  exact ⟨(Option.some.injEq _ _ ▸ hio : e = SenderError.io), hpe⟩

/-- Complete case analysis of one `emit` call. -/
lemma emit_cases (env : Env) (s : TcpSender) (data : List Nat) :
    ((emitMid env s data).1 = some SenderError.io ∧
      emit env s data = (some SenderError.io, (emitMid env s data).2)) ∨
    ((emitMid env s data).1 = none ∧
      data.length > (emitMid env s data).2.capacity -
        (emitMid env s data).2.buffer.length ∧
      emit env s data =
        (some SenderError.tooLargeData, (emitMid env s data).2)) ∨
    ((emitMid env s data).1 = none ∧
      data.length ≤ (emitMid env s data).2.capacity -
        (emitMid env s data).2.buffer.length ∧
      (((emitMid env s data).2.retry.should_retry
            (env.clock s.clockReads) = true ∧
        emit env s data = flush_buffer env
          { (emitMid env s data).2 with
              buffer := (emitMid env s data).2.buffer ++ data }) ∨
       ((emitMid env s data).2.retry.should_retry
            (env.clock s.clockReads) = false ∧
        emit env s data = (none,
          { (emitMid env s data).2 with
              buffer := (emitMid env s data).2.buffer ++ data })))) := by
  rw [emit_unfold]
  cases hp : (emitMid env s data).1 with
  | some e =>
    obtain ⟨he, -⟩ := emitMid_some_io env s data e hp
    subst he
    exact Or.inl ⟨rfl, rfl⟩
  | none =>
    by_cases hL : data.length > (emitMid env s data).2.capacity -
        (emitMid env s data).2.buffer.length
    · rw [if_pos hL]
      exact Or.inr (Or.inl ⟨rfl, hL, rfl⟩)
    · rw [if_neg hL]
      cases hr : ({ (emitMid env s data).2 with
          buffer := (emitMid env s data).2.buffer ++ data } :
            TcpSender).retry.should_retry (env.clock s.clockReads) with
      | true =>
        rw [if_pos (rfl : (true : Bool) = true)]
        exact Or.inr (Or.inr ⟨rfl, Nat.le_of_not_lt hL,
          Or.inl ⟨rfl, rfl⟩⟩)
      | false =>
        rw [if_neg (by simp : ¬((false : Bool) = true))]
        exact Or.inr (Or.inr ⟨rfl, Nat.le_of_not_lt hL,
          Or.inr ⟨rfl, rfl⟩⟩)

lemma emitMid_none_fields (env : Env) (s : TcpSender) (data : List Nat)
    (h : (emitMid env s data).1 = none) :
    (emitMid env s data).2.clockReads = s.clockReads + 1 ∧
    (emitMid env s data).2.handlerCalls = s.handlerCalls ∧
    (emitMid env s data).2.capacity = s.capacity ∧
    (emitMid env s data).2.retry.wait = s.retry.wait ∧
    ((emitMid env s data).2 = { s with clockReads := s.clockReads + 1 } ∨
      ((emitMid env s data).2.buffer = [] ∧
        (emitMid env s data).2.retry.error_records = [] ∧
        ((emitMid env s data).2.writes = s.writes ∨
          (emitMid env s data).2.writes = s.writes ++ [s.buffer]) ∧
        s.capacity < s.buffer.length + data.length ∧
        s.retry.should_retry (env.clock s.clockReads) = true)) :=
  preflush_none_spec env { s with clockReads := s.clockReads + 1 } data
    (env.clock s.clockReads) h

/-! ## Concrete environments used by the witnesses -/

/-- Clock `i ↦ 1000 + 10 * i`, network always up. -/
def envUp : Env := { clock := fun i => 1000 + 10 * i, net := fun _ => true }

/-- Clock `i ↦ 1000 + 10 * i`, network always down. -/
def envDown : Env :=
  { clock := fun i => 1000 + 10 * i, net := fun _ => false }

/-- Clock `i ↦ 1000 + 10 * i`; the first network operation (the initial
write) fails, the reconnect and the retried write succeed. -/
def envReconnect : Env :=
  { clock := fun i => 1000 + 10 * i, net := fun i => decide (0 < i) }

/-! ## Claim C8 -/

/-- Claim C8: after every flush that returns Ok — whether the buffer was
empty, the first write succeeded, or the write succeeded only after the
single reconnect — the buffer length is 0 and the retry manager's error
history is empty. -/
theorem flush_ok_clears_buffer_and_history (env : Env) (s : TcpSender)
    (h : (flush_buffer env s).1 = none) :
    (flush_buffer env s).2.buffer.length = 0 ∧
    (flush_buffer env s).2.retry.error_records = [] := by
  obtain ⟨hb, hr, -⟩ := flush_ok_spec env s h
  exact ⟨by rw [hb]; rfl, hr⟩

/-- A sender holding three buffered bytes and one recorded error. -/
def senderPending : TcpSender :=
  { TcpSender.new with
      buffer := [1, 2, 3]
      retry := { ConstantDelay.new with error_records := [5] } }

/-- Witness for C8: the pending sender flushed through the reconnect
path (first write fails, redial and second write succeed) ends with an
empty buffer and an empty error history. -/
theorem flush_ok_clears_buffer_and_history_witness :
    (flush_buffer envReconnect senderPending).2.buffer.length = 0 ∧
    (flush_buffer envReconnect senderPending).2.retry.error_records = [] :=
  flush_ok_clears_buffer_and_history envReconnect senderPending
    (by decide)

/-! ## Claim C5 -/

/-- Claim C5: for the default constant-delay policy (`wait = 50 ms`)
after any sequence of `record_error` / `clear_errors` calls,
`should_retry now` is true iff the error history is empty or `now` minus
the oldest retained timestamp (the back of the deque) is at least
50 ms; otherwise the sender must wait. -/
theorem constant_delay_should_retry_iff (ops : List RetryOp) (now : Nat) :
    (applyRetryOps ops ConstantDelay.new).should_retry now = true ↔
      ((applyRetryOps ops ConstantDelay.new).error_records = [] ∨
        ∃ last,
          (applyRetryOps ops ConstantDelay.new).error_records.getLast? =
            some last ∧ 50 ≤ now - last) := by
  have hw : (applyRetryOps ops ConstantDelay.new).wait = 50 :=
    applyRetryOps_wait ops ConstantDelay.new
  unfold ConstantDelay.should_retry
  cases hL : (applyRetryOps ops ConstantDelay.new).error_records.getLast?
    with
  | none =>
    simp [List.getLast?_eq_none_iff.mp hL]
  | some last =>
    rw [hw]
    simp only [decide_eq_true_eq]
    constructor
    · intro h
      exact Or.inr ⟨last, rfl, h⟩
    · rintro (hrec | ⟨l, hl, h⟩)
      · rw [hrec] at hL
        simp at hL
      · obtain rfl : last = l := Option.some.injEq _ _ ▸ hl
        exact h

/-! ## Claim C9 -/

lemma record_error_length_le (d : ConstantDelay) (t : Nat)
    (h : d.error_records.length ≤ d.max_errors) :
    (d.record_error t).error_records.length ≤
      (d.record_error t).max_errors := by
  unfold ConstantDelay.record_error
  split
  · rename_i hgt
    simp only [List.length_dropLast, List.length_cons]
    omega
  · rename_i hgt
    simp only [List.length_cons]
    simp only [List.length_cons, gt_iff_lt, not_lt] at hgt
    omega

lemma applyRetryOps_length_le (ops : List RetryOp) (d : ConstantDelay)
    (h : d.error_records.length ≤ d.max_errors) :
    (applyRetryOps ops d).error_records.length ≤
      (applyRetryOps ops d).max_errors := by
  induction ops generalizing d with
  | nil => exact h
  | cons op ops ih =>
    cases op with
    | record t => exact ih _ (record_error_length_le d t h)
    | clear => exact ih _ (by simp [ConstantDelay.clear_errors])

/-- Claim C9: for every sequence of retry-manager calls on the default
policy (`max_errors = 100`), the error history size never exceeds 100;
`record_error` pushes the new timestamp at the front (the head), and
when the bound would be exceeded one timestamp is evicted from the back
(the last element), else the history is exactly the push. -/
theorem record_error_bound_push_evict (ops : List RetryOp) (t : Nat) :
    (applyRetryOps ops ConstantDelay.new).error_records.length ≤ 100 ∧
    ((applyRetryOps ops ConstantDelay.new).record_error
        t).error_records.head? = some t ∧
    ((applyRetryOps ops ConstantDelay.new).error_records.length = 100 →
      ((applyRetryOps ops ConstantDelay.new).record_error
          t).error_records =
        (t :: (applyRetryOps ops ConstantDelay.new).error_records).dropLast) ∧
    ((applyRetryOps ops ConstantDelay.new).error_records.length < 100 →
      ((applyRetryOps ops ConstantDelay.new).record_error
          t).error_records =
        t :: (applyRetryOps ops ConstantDelay.new).error_records) := by
  have hmax : (applyRetryOps ops ConstantDelay.new).max_errors = 100 :=
    applyRetryOps_max ops ConstantDelay.new
  have hlen : (applyRetryOps ops ConstantDelay.new).error_records.length
      ≤ 100 := by
    have := applyRetryOps_length_le ops ConstantDelay.new (by simp [ConstantDelay.new])
    omega
  refine ⟨hlen, ?_, ?_, ?_⟩
  · unfold ConstantDelay.record_error
    split
    · rename_i hgt
      rw [hmax] at hgt
      simp only [List.length_cons, gt_iff_lt] at hgt
      have hne : (applyRetryOps ops ConstantDelay.new).error_records ≠
          [] := by
        intro hnil
        rw [hnil] at hgt
        simp at hgt
      cases hrec : (applyRetryOps ops ConstantDelay.new).error_records
        with
      | nil => exact absurd hrec hne
      | cons a as => simp [List.dropLast]
    · simp
  · intro h100
    unfold ConstantDelay.record_error
    rw [if_pos (by rw [hmax]; simp [h100])]
  · intro hlt
    unfold ConstantDelay.record_error
    rw [if_neg (by rw [hmax]; simp only [List.length_cons, gt_iff_lt, not_lt]; omega)]

set_option maxRecDepth 10000 in
/-- Witness for C9: after 100 recorded errors the history is full; the
101st `record_error` keeps the size at 100, pushes `7` at the front and
drops the oldest timestamp from the back. -/
theorem record_error_bound_push_evict_witness :
    ((applyRetryOps (List.map RetryOp.record (List.range 100))
        ConstantDelay.new).error_records.length ≤ 100 ∧
      ((applyRetryOps (List.map RetryOp.record (List.range 100))
          ConstantDelay.new).record_error 7).error_records.head? =
        some 7 ∧
      ((applyRetryOps (List.map RetryOp.record (List.range 100))
          ConstantDelay.new).error_records.length = 100 →
        ((applyRetryOps (List.map RetryOp.record (List.range 100))
            ConstantDelay.new).record_error 7).error_records =
          (7 :: (applyRetryOps (List.map RetryOp.record (List.range 100))
            ConstantDelay.new).error_records).dropLast) ∧
      ((applyRetryOps (List.map RetryOp.record (List.range 100))
          ConstantDelay.new).error_records.length < 100 →
        ((applyRetryOps (List.map RetryOp.record (List.range 100))
            ConstantDelay.new).record_error 7).error_records =
          7 :: (applyRetryOps (List.map RetryOp.record (List.range 100))
            ConstantDelay.new).error_records)) ∧
    (applyRetryOps (List.map RetryOp.record (List.range 100))
        ConstantDelay.new).error_records.length = 100 :=
  ⟨record_error_bound_push_evict
      (List.map RetryOp.record (List.range 100)) 7,
    by decide⟩

/-! ## Claim C7 -/

lemma emitMid_inv (env : Env) (s : TcpSender) (data : List Nat)
    (h : s.buffer.length ≤ s.capacity) :
    (emitMid env s data).2.buffer.length ≤
      (emitMid env s data).2.capacity ∧
    (emitMid env s data).2.capacity = s.capacity := by
  cases hp : (emitMid env s data).1 with
  | some e =>
    obtain ⟨-, hmid⟩ := emitMid_some_io env s data e hp
    have hne : (flush_buffer env
        { s with clockReads := s.clockReads + 1 }).1 ≠ none := by
      rw [← hmid, hp]; simp
    obtain ⟨-, hbuf, hcap, -⟩ := flush_fail_spec env _ hne
    rw [hmid, hbuf, hcap]
    exact ⟨h, rfl⟩
  | none =>
    obtain ⟨-, -, hcap, -, hor⟩ := emitMid_none_fields env s data hp
    refine ⟨?_, hcap⟩
    rcases hor with hid | ⟨hbuf, -⟩
    · rw [hid]
      exact h
    · rw [hbuf, hcap]
      simp

lemma emit_inv (env : Env) (s : TcpSender) (data : List Nat)
    (h : s.buffer.length ≤ s.capacity) :
    (emit env s data).2.buffer.length ≤ (emit env s data).2.capacity ∧
    (emit env s data).2.capacity = s.capacity := by
  obtain ⟨hmb, hmc⟩ := emitMid_inv env s data h
  rcases emit_cases env s data with ⟨hp, he⟩ | ⟨hp, hL, he⟩ |
    ⟨hp, hL, ⟨hr, he⟩ | ⟨hr, he⟩⟩
  · rw [he]
    exact ⟨hmb, hmc⟩
  · rw [he]
    exact ⟨hmb, hmc⟩
  · rw [he]
    cases hf : (flush_buffer env { (emitMid env s data).2 with
        buffer := (emitMid env s data).2.buffer ++ data }).1 with
    | none =>
      obtain ⟨hb, -, -, -, hc, -⟩ := flush_ok_spec env _ hf
      rw [hb, hc]
      exact ⟨by simp, hmc⟩
    | some e =>
      have hne : (flush_buffer env { (emitMid env s data).2 with
          buffer := (emitMid env s data).2.buffer ++ data }).1 ≠
          none := by rw [hf]; simp
      obtain ⟨-, hb, hc, -⟩ := flush_fail_spec env _ hne
      rw [hb, hc]
      refine ⟨?_, hmc⟩
      show ((emitMid env s data).2.buffer ++ data).length ≤
        (emitMid env s data).2.capacity
      rw [List.length_append]
      omega
  · rw [he]
    refine ⟨?_, hmc⟩
    show ((emitMid env s data).2.buffer ++ data).length ≤
      (emitMid env s data).2.capacity
    rw [List.length_append]
    omega

lemma runEmits_inv (env : Env) (ds : List (List Nat)) (s : TcpSender)
    (h : s.buffer.length ≤ s.capacity) :
    (runEmits env s ds).buffer.length ≤ (runEmits env s ds).capacity ∧
    (runEmits env s ds).capacity = s.capacity := by
  induction ds generalizing s with
  | nil => exact ⟨h, rfl⟩
  | cons d ds ih =>
    obtain ⟨h1, h2⟩ := emit_inv env s d h
    obtain ⟨g1, g2⟩ := ih (emit env s d).2 h1
    refine ⟨g1, ?_⟩
    show (runEmits env (emit env s d).2 ds).capacity = s.capacity
    rw [g2, h2]

/-- Claim C7: over every sequence of `emit` calls on a sender
constructed with the default 8 MiB buffer, the buffer length never
exceeds the capacity; and the invariant still holds at the state right
after the pre-flush, where `emit` evaluates the subtraction
`buffer.capacity() - buffer.len()`, so that subtraction never
underflows. -/
theorem buffer_length_le_capacity :
    (∀ (env : Env) (ds : List (List Nat)),
      (runEmits env TcpSender.new ds).buffer.length ≤
        (runEmits env TcpSender.new ds).capacity ∧
      (runEmits env TcpSender.new ds).capacity = 8 * 1024 * 1024) ∧
    (∀ (env : Env) (s : TcpSender) (data : List Nat),
      s.buffer.length ≤ s.capacity →
      (emitMid env s data).2.buffer.length ≤
        (emitMid env s data).2.capacity) :=
  ⟨fun env ds => runEmits_inv env ds TcpSender.new (by simp [TcpSender.new]),
    fun env s data h => (emitMid_inv env s data h).1⟩

/-- Witness for C7: two small emits on a fresh sender keep the buffer
within the 8 MiB capacity, and the post-pre-flush state of a further
emit satisfies the subtraction invariant. -/
theorem buffer_length_le_capacity_witness :
    ((runEmits envUp TcpSender.new [[1], [2, 3]]).buffer.length ≤
        (runEmits envUp TcpSender.new [[1], [2, 3]]).capacity ∧
      (runEmits envUp TcpSender.new [[1], [2, 3]]).capacity =
        8 * 1024 * 1024) ∧
    (emitMid envUp TcpSender.new [4]).2.buffer.length ≤
      (emitMid envUp TcpSender.new [4]).2.capacity :=
  ⟨buffer_length_le_capacity.1 envUp [[1], [2, 3]],
    buffer_length_le_capacity.2 envUp TcpSender.new [4] (by decide)⟩

/-! ## Claim C6 -/

/-- Claim C6: every flush that returns an error leaves the buffer
contents exactly unchanged, so a subsequent Ready flush retries the same
bytes; and every emit that returns TooLargeData does not append the data
— either the buffer and write log are exactly as before the call, or the
only change is the successful pre-flush the call attempted first, which
emptied the buffer. -/
theorem failed_flush_and_too_large_preserve_buffer :
    (∀ (env : Env) (s : TcpSender) (e : SenderError),
      (flush_buffer env s).1 = some e →
      (flush_buffer env s).2.buffer = s.buffer) ∧
    (∀ (env : Env) (s : TcpSender) (data : List Nat),
      (emit env s data).1 = some SenderError.tooLargeData →
      ((emit env s data).2.buffer = s.buffer ∧
        (emit env s data).2.writes = s.writes) ∨
      ((emit env s data).2.buffer = [] ∧
        s.capacity < s.buffer.length + data.length ∧
        s.retry.should_retry (env.clock s.clockReads) = true)) := by
  constructor
  · intro env s e h
    have hne : (flush_buffer env s).1 ≠ none := by rw [h]; simp
    exact (flush_fail_spec env s hne).2.1
  · intro env s data h
    rcases emit_cases env s data with ⟨hp, he⟩ | ⟨hp, hL, he⟩ |
      ⟨hp, hL, ⟨hr, he⟩ | ⟨hr, he⟩⟩
    · rw [he] at h
      simp at h
    · obtain ⟨-, -, -, -, hor⟩ := emitMid_none_fields env s data hp
      rw [he]
      rcases hor with hid | ⟨hbuf, -, hws, hcnd, hrt⟩
      · rw [hid]
        exact Or.inl ⟨rfl, rfl⟩
      · exact Or.inr ⟨hbuf, hcnd, hrt⟩
    · rw [he] at h
      have hne : (flush_buffer env { (emitMid env s data).2 with
          buffer := (emitMid env s data).2.buffer ++ data }).1 ≠
          none := by rw [h]; simp
      have := (flush_fail_spec env _ hne).1
      rw [h] at this
      simp at this
    · rw [he] at h
      simp at h

/-- A frame one byte larger than the whole 8 MiB buffer capacity. -/
def bigData : List Nat := List.replicate 8388609 0

/-- The state reached inside `emit envUp TcpSender.new bigData` right
after the pre-flush (which ran on an empty buffer and merely cleared the
empty error history). -/
def midState : TcpSender :=
  { buffer := []
    capacity := 8 * 1024 * 1024
    retry := { error_records := [], max_errors := 100, wait := 50 }
    clockReads := 1
    netOps := 0
    writes := []
    handlerCalls := [] }

lemma bigData_length : bigData.length = 8388609 := by
  rw [show bigData = List.replicate 8388609 0 from rfl,
    List.length_replicate]

lemma emitMid_bigData : emitMid envUp TcpSender.new bigData =
    (none, midState) := by
  unfold emitMid emit_preflush
  rw [if_pos]
  · simp [flush_buffer, TcpSender.new, ConstantDelay.new,
      ConstantDelay.clear_errors, midState]
  · constructor
    · rw [bigData_length]
      decide
    · decide

lemma emit_bigData_too_large :
    (emit envUp TcpSender.new bigData).1 =
      some SenderError.tooLargeData := by
  rw [emit_unfold, emitMid_bigData, bigData_length]
  decide

/-- Witness for C6: flushing the pending sender against a dead network
keeps its three buffered bytes; a fresh sender handed a frame one byte
larger than the whole 8 MiB capacity gets TooLargeData with nothing
appended. -/
theorem failed_flush_and_too_large_preserve_buffer_witness :
    (flush_buffer envDown senderPending).2.buffer =
      senderPending.buffer ∧
    (((emit envUp TcpSender.new bigData).2.buffer =
          TcpSender.new.buffer ∧
        (emit envUp TcpSender.new bigData).2.writes =
          TcpSender.new.writes) ∨
      ((emit envUp TcpSender.new bigData).2.buffer = [] ∧
        TcpSender.new.capacity <
          TcpSender.new.buffer.length + bigData.length ∧
        TcpSender.new.retry.should_retry
          (envUp.clock TcpSender.new.clockReads) = true)) :=
  ⟨failed_flush_and_too_large_preserve_buffer.1 envDown senderPending
      SenderError.io (by decide),
    failed_flush_and_too_large_preserve_buffer.2 envUp TcpSender.new
      bigData emit_bigData_too_large⟩

/-! ## Claim C10 -/

/-- Claim C10: calling `emit` with a zero-length slice never returns
TooLargeData; when the retry manager reports Ready the call is exactly a
flush of the currently buffered bytes — in particular with an empty
buffer it returns Ok, clears the error history and performs no network
write — and when the manager reports Wait it returns Ok leaving buffer,
write log, handler log and error history unchanged (only the clock-read
counter advances). -/
theorem emit_empty_data (env : Env) (s : TcpSender)
    (h : s.buffer.length ≤ s.capacity) :
    (emit env s []).1 ≠ some SenderError.tooLargeData ∧
    (s.retry.should_retry (env.clock s.clockReads) = true →
      emit env s [] =
        flush_buffer env { s with clockReads := s.clockReads + 1 }) ∧
    (s.buffer = [] →
      s.retry.should_retry (env.clock s.clockReads) = true →
      emit env s [] =
        (none, { s with clockReads := s.clockReads + 1, retry := s.retry.clear_errors })) ∧
    (s.retry.should_retry (env.clock s.clockReads) = false →
      emit env s [] = (none, { s with clockReads := s.clockReads + 1 })) := by
  have hmid : emitMid env s [] =
      (none, { s with clockReads := s.clockReads + 1 }) := by
    unfold emitMid emit_preflush
    rw [if_neg]
    rintro ⟨hc, -⟩
    dsimp only at hc
    rw [List.length_nil] at hc
    omega
  have hkey : emit env s [] =
      if s.retry.should_retry (env.clock s.clockReads) = true then
        flush_buffer env { s with clockReads := s.clockReads + 1 }
      else (none, { s with clockReads := s.clockReads + 1 }) := by
    rw [emit_unfold, hmid]
    dsimp only
    rw [if_neg (by simp)]
    rw [List.append_nil]
  refine ⟨?_, ?_, ?_, ?_⟩
  · rw [hkey]
    cases hr : s.retry.should_retry (env.clock s.clockReads) with
    | false => rw [if_neg (by simp)]; simp
    | true =>
      rw [if_pos (rfl : (true : Bool) = true)]
      cases hf : (flush_buffer env
          { s with clockReads := s.clockReads + 1 }).1 with
      | none => simp
      | some e =>
        have he : some e = some SenderError.io :=
          hf.symm.trans (flush_fail_spec env
            { s with clockReads := s.clockReads + 1 }
            (by rw [hf]; simp)).1
        rw [Option.some.injEq] at he
        rw [he]
        simp
  · intro hr
    rw [hkey, if_pos hr]
  · intro hb hr
    rw [hkey, if_pos hr]
    exact flush_empty env _ hb
  · intro hr
    rw [hkey, if_neg (by simp [hr])]

/-- Witness for C10: on a fresh sender (empty buffer, Ready policy) an
empty emit returns Ok, never TooLargeData, and only clears the (empty)
history and advances the clock counter. -/
theorem emit_empty_data_witness :
    (emit envUp TcpSender.new []).1 ≠ some SenderError.tooLargeData ∧
    emit envUp TcpSender.new [] =
      (none, { TcpSender.new with clockReads := 1, retry := ConstantDelay.new.clear_errors }) :=
  ⟨(emit_empty_data envUp TcpSender.new (by decide)).1,
    (emit_empty_data envUp TcpSender.new (by decide)).2.2.1 rfl
      (by decide)⟩

/-! ## Shared `emit` outcome lemmas (claims C2, C3) -/

lemma emit_io_full (env : Env) (s : TcpSender) (data : List Nat)
    (h : (emit env s data).1 = some SenderError.io) :
    (emit env s data).2.clockReads = s.clockReads + 2 ∧
    (emit env s data).2.handlerCalls =
      s.handlerCalls ++
        [{ timestamp := env.clock (s.clockReads + 1)
           error := SenderError.io
           unsent := (emit env s data).2.buffer }] := by
  rcases emit_cases env s data with ⟨hp, he⟩ | ⟨hp, hL, he⟩ |
    ⟨hp, hL, ⟨hr, he⟩ | ⟨hr, he⟩⟩
  · obtain ⟨-, hmid⟩ := emitMid_some_io env s data _ hp
    have hne : (flush_buffer env
        { s with clockReads := s.clockReads + 1 }).1 ≠ none := by
      rw [← hmid, hp]; simp
    obtain ⟨-, hbuf, -, -, hck, -, hhc⟩ := flush_fail_spec env _ hne
    rw [he]
    dsimp only
    rw [hmid, hck, hhc, hbuf]
    exact ⟨rfl, rfl⟩
  · rw [he] at h
    simp at h
  · obtain ⟨hckm, hhcm, -, -, -⟩ := emitMid_none_fields env s data hp
    rw [he] at h ⊢
    have hne : (flush_buffer env { (emitMid env s data).2 with
        buffer := (emitMid env s data).2.buffer ++ data }).1 ≠ none := by
      rw [h]; simp
    obtain ⟨-, hbuf, -, -, hck, -, hhc⟩ := flush_fail_spec env _ hne
    have h1 : ({ (emitMid env s data).2 with
        buffer := (emitMid env s data).2.buffer ++ data } :
          TcpSender).clockReads = s.clockReads + 1 := hckm
    have h2 : ({ (emitMid env s data).2 with
        buffer := (emitMid env s data).2.buffer ++ data } :
          TcpSender).handlerCalls = s.handlerCalls := hhcm
    rw [hck, hhc, hbuf, h1, h2]
    exact ⟨rfl, rfl⟩
  · rw [he] at h
    simp at h

lemma emit_nonio_full (env : Env) (s : TcpSender) (data : List Nat)
    (h : (emit env s data).1 ≠ some SenderError.io) :
    (emit env s data).2.clockReads = s.clockReads + 1 ∧
    (emit env s data).2.handlerCalls = s.handlerCalls := by
  rcases emit_cases env s data with ⟨hp, he⟩ | ⟨hp, hL, he⟩ |
    ⟨hp, hL, ⟨hr, he⟩ | ⟨hr, he⟩⟩
  · rw [he] at h
    simp at h
  · obtain ⟨hckm, hhcm, -, -, -⟩ := emitMid_none_fields env s data hp
    rw [he]
    dsimp only
    exact ⟨hckm, hhcm⟩
  · obtain ⟨hckm, hhcm, -, -, -⟩ := emitMid_none_fields env s data hp
    rw [he] at h ⊢
    cases hf : (flush_buffer env { (emitMid env s data).2 with
        buffer := (emitMid env s data).2.buffer ++ data }).1 with
    | some e =>
      have hio := (flush_fail_spec env _ (by rw [hf]; simp)).1
      rw [hio] at h
      exact absurd rfl h
    | none =>
      obtain ⟨-, -, -, -, -, hck, hhc, -⟩ := flush_ok_spec env _ hf
      have h1 : ({ (emitMid env s data).2 with
          buffer := (emitMid env s data).2.buffer ++ data } :
            TcpSender).clockReads = s.clockReads + 1 := hckm
      have h2 : ({ (emitMid env s data).2 with
          buffer := (emitMid env s data).2.buffer ++ data } :
            TcpSender).handlerCalls = s.handlerCalls := hhcm
      rw [hck, hhc, h1, h2]
      exact ⟨rfl, rfl⟩
  · obtain ⟨hckm, hhcm, -, -, -⟩ := emitMid_none_fields env s data hp
    rw [he]
    dsimp only
    exact ⟨hckm, hhcm⟩

/-! ## Claim C1 -/

/-- A sender whose retry manager is in its blocked state at
`envDown.clock 0 = 1000` (last error 5 ms ago, under the 50 ms wait). -/
def sWaiting : TcpSender :=
  { TcpSender.new with
      retry := { ConstantDelay.new with error_records := [995] } }

/-- Counterexample to C1: a sender whose retry manager reports its
blocked verdict at entry (the only non-ready verdict the code has) gets
an Ok from emit, with no error returned and no error-handler call — not
a RetryAttemptsExceeded error, which does not exist in `SenderError`. -/
theorem emit_wait_returns_ok_counterexample :
    sWaiting.retry.should_retry (envDown.clock sWaiting.clockReads) =
      false ∧
    (emit envDown sWaiting [2]).1 = none ∧
    (emit envDown sWaiting [2]).2.handlerCalls =
      sWaiting.handlerCalls :=
  ⟨by decide, by decide, by decide⟩

/-- Claim C1 (amended): the code's retry manager is two-valued
(`should_retry` : retry now / wait); there is no Exhausted verdict, and
`SenderError` has only the IO and TooLargeData variants, so emit can
never return a RetryAttemptsExceeded error.  When the manager reports
the blocked (wait) verdict at emit entry and the data fits in the
buffer, emit appends the data and returns Ok without invoking the error
handler. -/
theorem emit_no_retry_attempts_exceeded :
    (∀ e : SenderError,
      e = SenderError.io ∨ e = SenderError.tooLargeData) ∧
    (∀ (env : Env) (s : TcpSender) (data : List Nat),
      s.retry.should_retry (env.clock s.clockReads) = false →
      s.buffer.length + data.length ≤ s.capacity →
      emit env s data =
        (none, { s with buffer := s.buffer ++ data, clockReads := s.clockReads + 1 })) := by
  constructor
  · intro e
    cases e
    · exact Or.inl rfl
    · exact Or.inr rfl
  · intro env s data hw hfit
    have hmid : emitMid env s data =
        (none, { s with clockReads := s.clockReads + 1 }) := by
      unfold emitMid emit_preflush
      rw [if_neg]
      rintro ⟨-, hb⟩
      dsimp only at hb
      rw [hw] at hb
      exact Bool.noConfusion hb
    rw [emit_unfold, hmid]
    dsimp only
    rw [if_neg (by omega)]
    rw [if_neg (by rw [hw]; simp)]

/-- Witness for the amended C1: on the blocked sender, emit buffers the
byte and returns Ok. -/
theorem emit_no_retry_attempts_exceeded_witness :
    emit envDown sWaiting [2] =
      (none, { sWaiting with buffer := [2], clockReads := 1 }) :=
  emit_no_retry_attempts_exceeded.2 envDown sWaiting [2] (by decide)
    (by decide)

/-! ## Claim C3 -/

/-- Counterexample to C3: an emit whose flush fails consumes two clock
readings (the counter goes from 0 to 2), and the timestamp recorded and
passed to the error handler is the second reading 1010
(`envDown.clock 1`), not the entry reading 1000 (`envDown.clock 0`). -/
theorem emit_two_clock_reads_counterexample :
    (emit envDown TcpSender.new [1]).2.clockReads = 2 ∧
    (emit envDown TcpSender.new [1]).2.handlerCalls =
      [{ timestamp := 1010, error := SenderError.io, unsent := [1] }] ∧
    envDown.clock 0 = 1000 ∧ (1010 : Nat) ≠ 1000 :=
  ⟨by decide, by decide, rfl, by decide⟩

/-- Claim C3 (amended): emit reads the clock once at entry and uses that
single reading for both retry-policy decisions; but when the flush
fails, `flush_buffer` performs a second clock read, and that second
reading — not emit's entry reading — is the timestamp recorded by
`record_error` and passed to the error handler; every emit outcome other
than an IO failure performs exactly one read. -/
theorem emit_clock_reads (env : Env) (s : TcpSender) (data : List Nat) :
    ((emit env s data).1 = some SenderError.io →
      (emit env s data).2.clockReads = s.clockReads + 2 ∧
      (emit env s data).2.handlerCalls.getLast? =
        some { timestamp := env.clock (s.clockReads + 1)
               error := SenderError.io
               unsent := (emit env s data).2.buffer }) ∧
    ((emit env s data).1 ≠ some SenderError.io →
      (emit env s data).2.clockReads = s.clockReads + 1) := by
  constructor
  · intro h
    obtain ⟨hck, hhc⟩ := emit_io_full env s data h
    refine ⟨hck, ?_⟩
    rw [hhc, List.getLast?_append_cons]
    rfl
  · intro h
    exact (emit_nonio_full env s data h).1

/-- Witness for the amended C3: the failing emit of the counterexample
setting reads the clock twice and stamps the handler call with the
second reading; a successful emit reads it once. -/
theorem emit_clock_reads_witness :
    ((emit envDown TcpSender.new [1]).2.clockReads = 0 + 2 ∧
      (emit envDown TcpSender.new [1]).2.handlerCalls.getLast? =
        some { timestamp := envDown.clock (0 + 1)
               error := SenderError.io
               unsent := (emit envDown TcpSender.new [1]).2.buffer }) ∧
    (emit envUp TcpSender.new [1]).2.clockReads = 0 + 1 :=
  ⟨(emit_clock_reads envDown TcpSender.new [1]).1 (by decide),
    (emit_clock_reads envUp TcpSender.new [1]).2 (by decide)⟩

/-! ## Claim C2 -/

/-- Claim C2 (amended): every emit that returns an IO error was preceded
by exactly one `handle_error` call during that emit, carrying the same
IO error and the unsent buffer contents at the failure (which equal the
post-call buffer); an emit that returns TooLargeData makes no handler
call at all, and neither does an emit that returns Ok. -/
theorem emit_error_handler_calls (env : Env) (s : TcpSender)
    (data : List Nat) :
    ((emit env s data).1 = some SenderError.io →
      (emit env s data).2.handlerCalls =
        s.handlerCalls ++
          [{ timestamp := env.clock (s.clockReads + 1)
             error := SenderError.io
             unsent := (emit env s data).2.buffer }]) ∧
    ((emit env s data).1 = some SenderError.tooLargeData →
      (emit env s data).2.handlerCalls = s.handlerCalls) ∧
    ((emit env s data).1 = none →
      (emit env s data).2.handlerCalls = s.handlerCalls) :=
  ⟨fun h => (emit_io_full env s data h).2,
    fun h => (emit_nonio_full env s data (by rw [h]; simp)).2,
    fun h => (emit_nonio_full env s data (by rw [h]; simp)).2⟩

/-- Witness for the amended C2: a failing emit logs exactly one handler
call with the IO error; a successful emit logs none. -/
theorem emit_error_handler_calls_witness :
    (emit envDown TcpSender.new [1]).2.handlerCalls =
      TcpSender.new.handlerCalls ++
        [{ timestamp := envDown.clock 1
           error := SenderError.io
           unsent := (emit envDown TcpSender.new [1]).2.buffer }] ∧
    (emit envUp TcpSender.new [2]).2.handlerCalls =
      TcpSender.new.handlerCalls :=
  ⟨(emit_error_handler_calls envDown TcpSender.new [1]).1 (by decide),
    (emit_error_handler_calls envUp TcpSender.new [2]).2.2 (by decide)⟩

/-- A frame of 8388600 bytes: fits an empty 8 MiB buffer, but leaves
only 8 spare bytes. -/
def fillData : List Nat := List.replicate 8388600 0

lemma fillData_length : fillData.length = 8388600 := by
  rw [show fillData = List.replicate 8388600 0 from rfl,
    List.length_replicate]

/-- The sender state after a first emit of `fillData` against a dead
network: the frame is buffered, the flush failed, one error is recorded
and one handler call was made (`emit_fillData_result` below shows this
state is reached from the fresh sender). -/
def sAfterFail : TcpSender :=
  { buffer := fillData
    capacity := 8 * 1024 * 1024
    retry := { error_records := [1010], max_errors := 100, wait := 50 }
    clockReads := 2
    netOps := 2
    writes := []
    handlerCalls :=
      [{ timestamp := 1010, error := SenderError.io, unsent := fillData }] }

/-- The sender state to which the failing flush of the first emit is
applied: the fill frame appended to the fresh sender's empty buffer. -/
def sFilled : TcpSender :=
  { TcpSender.new with
      buffer := TcpSender.new.buffer ++ fillData
      clockReads := TcpSender.new.clockReads + 1 }

lemma emit_fillData_eq :
    emit envDown TcpSender.new fillData = flush_buffer envDown sFilled := by
  have hmid : emitMid envDown TcpSender.new fillData =
      (none, { TcpSender.new with
        clockReads := TcpSender.new.clockReads + 1 }) := by
    unfold emitMid emit_preflush
    rw [if_neg]
    rintro ⟨hc, -⟩
    rw [fillData_length] at hc
    revert hc
    decide
  rw [emit_unfold, hmid]
  dsimp only
  rw [if_neg (by rw [fillData_length]; decide)]
  rw [if_pos (by decide)]
  rfl

lemma fillData_ne_nil : fillData ≠ [] := by
  intro h
  have hlen := congrArg List.length h
  rw [fillData_length] at hlen
  simp at hlen

lemma sendFilled_eq :
    send_buffer_with_reconnect_once envDown sFilled =
      (false, { sFilled with netOps := sFilled.netOps + 1 + 1 }) := by
  unfold send_buffer_with_reconnect_once netOp
  simp [envDown]

lemma flush_sFilled_eq :
    flush_buffer envDown sFilled = (some SenderError.io, sAfterFail) := by
  unfold flush_buffer
  rw [if_neg]
  · rw [sendFilled_eq]
    dsimp only [readClock]
    rw [show sFilled.buffer = TcpSender.new.buffer ++ fillData from rfl,
      show TcpSender.new.buffer = ([] : List Nat) from rfl,
      List.nil_append,
      show sFilled.retry = ConstantDelay.new from rfl,
      show sFilled.clockReads = 1 from rfl,
      show sFilled.netOps = 0 from rfl,
      show sFilled.writes = ([] : List (List Nat)) from rfl,
      show sFilled.handlerCalls = ([] : List HandlerCall) from rfl,
      show envDown.clock 1 = 1010 from rfl,
      show ConstantDelay.new.record_error 1010 =
        ({ error_records := [1010], max_errors := 100, wait := 50 } :
          ConstantDelay) from by decide,
      List.nil_append]
    rw [if_neg (by simp)]
    rw [show sFilled.capacity = 8 * 1024 * 1024 from rfl]
    rfl
  · rw [show sFilled.buffer = TcpSender.new.buffer ++ fillData from rfl,
      show TcpSender.new.buffer = ([] : List Nat) from rfl,
      List.nil_append, List.isEmpty_iff]
    exact fillData_ne_nil

/-- Reaching `sAfterFail`: the first emit of the fill frame on a fresh
sender against a dead network returns the IO error and leaves the
sender in the `sAfterFail` state. -/
lemma emit_fillData_result :
    emit envDown TcpSender.new fillData =
      (some SenderError.io, sAfterFail) := by
  rw [emit_fillData_eq]
  exact flush_sFilled_eq

/-- Counterexample to C2: from a fresh sender, a first emit of a big
frame fails with the IO error (one handler call, leaving state
`sAfterFail`); a second emit of nine more bytes while the policy is
blocked returns TooLargeData — yet no `handle_error` call at all is
made during that second emit, contradicting the claim that every error
return is preceded by exactly one handler call with that error. -/
theorem emit_too_large_no_handler_call_counterexample :
    emit envDown TcpSender.new fillData =
      (some SenderError.io, sAfterFail) ∧
    (emit envDown sAfterFail [1, 2, 3, 4, 5, 6, 7, 8, 9]).1 =
      some SenderError.tooLargeData ∧
    (emit envDown sAfterFail [1, 2, 3, 4, 5, 6, 7, 8, 9]).2.handlerCalls
      = sAfterFail.handlerCalls := by
  refine ⟨emit_fillData_result, ?_⟩
  have hmid : emitMid envDown sAfterFail [1, 2, 3, 4, 5, 6, 7, 8, 9] =
      (none,
        { sAfterFail with clockReads := sAfterFail.clockReads + 1 }) := by
    unfold emitMid emit_preflush
    rw [if_neg]
    rintro ⟨-, hb⟩
    dsimp only at hb
    rw [show sAfterFail.retry =
        ({ error_records := [1010], max_errors := 100, wait := 50 } :
          ConstantDelay) from rfl,
      show sAfterFail.clockReads = 2 from rfl] at hb
    revert hb
    decide
  rw [emit_unfold_none envDown sAfterFail [1, 2, 3, 4, 5, 6, 7, 8, 9]
    { sAfterFail with clockReads := sAfterFail.clockReads + 1 } hmid]
  rw [if_pos]
  · exact ⟨rfl, rfl⟩
  · rw [show ({ sAfterFail with
          clockReads := sAfterFail.clockReads + 1 } :
          TcpSender).capacity = 8 * 1024 * 1024 from rfl,
      show ({ sAfterFail with
          clockReads := sAfterFail.clockReads + 1 } :
          TcpSender).buffer = fillData from rfl, fillData_length]
    decide

/-! ## Claim C4 -/

lemma asU8_sar_spec (i : Int) (k j : Nat) (hkj : k + j = 64)
    (hj : 8 ≤ j) :
    asU8 (sar i k) = (i % 2 ^ 64).toNat / 2 ^ k % 256 := by
  unfold asU8 sar
  rw [Int.fdiv_eq_ediv _ (by positivity)]
  have h2 : ((2:Int) ^ 64) = 2 ^ j * 2 ^ k := by
    rw [← pow_add, Nat.add_comm j k, hkj]
  have hq := Int.ediv_add_emod i (2 ^ 64)
  have hr0 : (0:Int) ≤ i % 2 ^ 64 := Int.emod_nonneg i (by positivity)
  have hi : i = i % 2 ^ 64 + (2 ^ j * (i / 2 ^ 64)) * 2 ^ k := by
    conv_lhs => rw [← hq]
    rw [h2]
    ring
  have hstep1 : (i / 2 ^ k) % 256 = ((i % 2 ^ 64) / 2 ^ k) % 256 := by
    conv_lhs => rw [hi]
    rw [Int.add_mul_ediv_right _ _ (by positivity : ((2:Int) ^ k) ≠ 0)]
    have h3 : (2:Int) ^ j * (i / 2 ^ 64) =
        (2 ^ (j - 8) * (i / 2 ^ 64)) * 256 := by
      rw [mul_comm (2 ^ (j - 8) * (i / 2 ^ 64)) 256, ← mul_assoc]
      congr 1
      rw [show (256:Int) = 2 ^ 8 from rfl, ← pow_add]
      congr 1
      omega
    rw [h3, Int.add_mul_emod_self]
  rw [hstep1]
  generalize hm : i % 2 ^ 64 = r at hr0 ⊢
  lift r to Nat using hr0 with m
  rw [show ((2:Int) ^ k) = ((2 ^ k : Nat) : Int) by push_cast; ring,
    ← Int.ofNat_ediv,
    show ((256:Int)) = ((256 : Nat) : Int) from rfl,
    ← Int.ofNat_emod, Int.toNat_ofNat]
  rw [Int.toNat_ofNat]

lemma write_i64_spec (i : Int) (out : List Nat) :
    write_i64 i out = out ++ [0xd3] ++ specI64be i := by
  have h56 := asU8_sar_spec i 56 8 (by omega) (by omega)
  have h48 := asU8_sar_spec i 48 16 (by omega) (by omega)
  have h40 := asU8_sar_spec i 40 24 (by omega) (by omega)
  have h32 := asU8_sar_spec i 32 32 (by omega) (by omega)
  have h24 := asU8_sar_spec i 24 40 (by omega) (by omega)
  have h16 := asU8_sar_spec i 16 48 (by omega) (by omega)
  have h8 := asU8_sar_spec i 8 56 (by omega) (by omega)
  have h0 : asU8 i = (i % 2 ^ 64).toNat % 256 := by
    have h := asU8_sar_spec i 0 64 (by omega) (by omega)
    rw [show sar i 0 = i by unfold sar; norm_num [Int.fdiv_one]] at h
    simpa using h
  unfold write_i64 specI64be
  rw [h56, h48, h40, h32, h24, h16, h8, h0]
  simp

lemma write_string_spec (s out : List Nat) (h : s.length < 2 ^ 32) :
    write_string s out = out ++ specStrHeader s.length ++ s := by
  have hor : ∀ L : Nat, L < 32 → 160 ||| L = 160 + L := by decide
  simp only [write_string, specStrHeader]
  by_cases h32 : s.length < 32
  · rw [if_pos h32, if_pos h32, hor s.length h32]
  · rw [if_neg h32, if_neg h32]
    by_cases h256 : s.length < 256
    · rw [if_pos h256, if_pos h256, Nat.mod_eq_of_lt h256]
    · rw [if_neg h256, if_neg h256]
      by_cases h65536 : s.length < 65536
      · rw [if_pos h65536, if_pos h65536]
        rw [show (2:Nat) ^ 8 = 256 from rfl,
          Nat.mod_eq_of_lt (by omega : s.length / 256 < 256)]
      · rw [if_neg h65536, if_neg h65536]

/-- Claim C4: for every tag (as UTF-8 bytes) shorter than `2 ^ 32`,
every signed 64-bit time and every record byte sequence from a
successful record-encoder, the MessagePack frame built by
`log_msgpack_with_timestamp` is exactly: `0x93`; then the tag header per
the size-class table followed by the tag bytes; then `0xD3` followed by
the 8 big-endian two's-complement bytes of the time; then the record's
bytes verbatim. -/
theorem log_msgpack_frame_layout (tag : List Nat) (time : Int)
    (record : List Nat) (htag : tag.length < 2 ^ 32)
    (hlo : -2 ^ 63 ≤ time) (hhi : time < 2 ^ 63) :
    log_msgpack_with_timestamp tag time record =
      [0x93] ++ specStrHeader tag.length ++ tag ++ [0xd3] ++
        specI64be time ++ record := by
  simp only [log_msgpack_with_timestamp]
  rw [write_string_spec tag [0x93] htag, write_i64_spec]

/-- Witness for C4 (spec scenario S1): the frame for tag "foo.bar"
(7 UTF-8 bytes), time 1500564758 and the record bytes of
`{"key":"value"}` — checked against the claim's layout and against the
expected raw bytes. -/
theorem log_msgpack_frame_layout_witness :
    log_msgpack_with_timestamp
        [0x66, 0x6F, 0x6F, 0x2E, 0x62, 0x61, 0x72] 1500564758
        [0x81, 0xA3, 0x6B, 0x65, 0x79, 0xA5, 0x76, 0x61, 0x6C, 0x75,
          0x65] =
      [0x93] ++
        specStrHeader
          ([0x66, 0x6F, 0x6F, 0x2E, 0x62, 0x61, 0x72] : List Nat).length
        ++ [0x66, 0x6F, 0x6F, 0x2E, 0x62, 0x61, 0x72] ++ [0xd3] ++
        specI64be 1500564758 ++
        [0x81, 0xA3, 0x6B, 0x65, 0x79, 0xA5, 0x76, 0x61, 0x6C, 0x75,
          0x65] ∧
    log_msgpack_with_timestamp
        [0x66, 0x6F, 0x6F, 0x2E, 0x62, 0x61, 0x72] 1500564758
        [0x81, 0xA3, 0x6B, 0x65, 0x79, 0xA5, 0x76, 0x61, 0x6C, 0x75,
          0x65] =
      [0x93, 0xA7, 0x66, 0x6F, 0x6F, 0x2E, 0x62, 0x61, 0x72, 0xD3,
        0x00, 0x00, 0x00, 0x00, 0x59, 0x70, 0xCD, 0x16, 0x81, 0xA3,
        0x6B, 0x65, 0x79, 0xA5, 0x76, 0x61, 0x6C, 0x75, 0x65] :=
  ⟨log_msgpack_frame_layout
      [0x66, 0x6F, 0x6F, 0x2E, 0x62, 0x61, 0x72] 1500564758
      [0x81, 0xA3, 0x6B, 0x65, 0x79, 0xA5, 0x76, 0x61, 0x6C, 0x75,
        0x65]
      (by decide) (by decide) (by decide),
    by decide⟩
